import Mathlib

/-!
Shallow embedding of the authentication core of the repository
(src/app/security.py, src/app/schemas.py, src/app/models.py,
src/app/endpoints/auth.py) in Lean 4, together with theorems settling the
frozen claims about it.

Modelling conventions:
* time is `Int`, seconds since the epoch (the code works at seconds
  granularity: python-jose serialises the `exp` datetime to an integer
  timestamp, and both expiry comparisons are at that granularity; the
  process is assumed to run with UTC local time, so
  `datetime.fromtimestamp(e) < datetime.utcnow()` is `e < now`);
* the HMAC-SHA-256 signature of a JWS token is modelled symbolically: a
  token records the key it was signed with, and signature verification
  checks that recorded key against the verifying key (standard symbolic
  model of an unforgeable MAC);
* the bcrypt digest computed by passlib is modelled symbolically by an
  injective function of (salt, password); only determinism and injectivity
  of the digest are used, never its one-wayness;
* Python functions that can raise are embedded as `Except`-valued
  functions, with one error constructor per raise site;
* the SQLAlchemy user table is a `List User`; `query(...).filter(...).first()`
  is `List.find?`.
-/

deriving instance DecidableEq for Except

namespace App

/-- The dictionary of claims carried inside a JWS token, as seen by
python-jose after payload deserialisation.  `create_access_token` always
populates all three fields; a field that is `none` models a token (made by
some other producer) whose JSON payload lacks that claim. -/
structure JWTClaims where
  sub : Option String
  exp : Option Int
  scopes : Option (List String)
deriving Repr, DecidableEq

/-- A structurally well-formed compact JWS token: its claims plus the
symbolic signature, i.e. the key that produced the HMAC over the payload. -/
structure JWTToken where
  claims : JWTClaims
  signedWith : String
deriving Repr, DecidableEq

/-- schemas.TokenPayload: `sub : Union[str,int]`, `exp : int`,
`scopes : List[str] = []`.  The decoded JSON always supplies `sub` as a
string (the encoder stored `str(subject)`), and the pydantic `Union[str,int]`
keeps a string as a string, so `sub` is embedded as `String`. -/
structure TokenPayload where
  sub : String
  exp : Int
  scopes : List String
deriving Repr, DecidableEq

/-- The errors `jwt.decode` of python-jose can raise that are relevant to a
structurally well-formed token: signature verification failure (raised
first), and `ExpiredSignatureError` from claim validation. -/
inductive JoseError where
  | signatureInvalid
  | expiredSignature
deriving Repr, DecidableEq

/-- The internal failure kinds of `decode_access_token` (all surfaced to
callers as `ValueError`, but distinguishable by message). -/
inductive TokenError where
  | invalidSignature
  | malformed
  | expired
deriving Repr, DecidableEq

/-- python-jose `jwt.decode(token, key, algorithms=[ALGORITHM])`: verify
the signature first; then validate claims, raising `ExpiredSignatureError`
when an `exp` claim is present and strictly less than the current integer
timestamp (leeway 0); a missing `exp` claim is not an error for jose. -/
def jwt_decode (secret : String) (now : Int) (t : JWTToken) :
    Except JoseError JWTClaims :=
  if t.signedWith = secret then
    match t.claims.exp with
    | some e => if e < now then .error .expiredSignature else .ok t.claims
    | none => .ok t.claims
  else
    .error .signatureInvalid

/-- security.ACCESS_TOKEN_EXPIRE_MINUTES -/
def ACCESS_TOKEN_EXPIRE_MINUTES : Int := 30

/-- The `Union[str, int]` subject argument of `create_access_token`. -/
inductive StrOrInt where
  | str (s : String)
  | int (n : Int)
deriving Repr, DecidableEq

/-- Python `str(subject)` on a `Union[str, int]` value. -/
def StrOrInt.toPyStr : StrOrInt → String
  | .str s => s
  | .int n => toString n

/-- security.create_access_token.  `expires_delta` is the optional
`timedelta` in seconds; Python tests it by truthiness (`if expires_delta:`),
so a zero delta falls back to the 30-minute default exactly like `None`.
The payload is `{"sub": str(subject), "exp": now + delta, "scopes": scopes}`
signed with the secret. -/
def create_access_token (secret : String) (now : Int) (subject : StrOrInt)
    (expires_delta : Option Int) (scopes : List String) : JWTToken :=
  let expire : Int :=
    match expires_delta with
    | some d => if d = 0 then now + ACCESS_TOKEN_EXPIRE_MINUTES * 60 else now + d
    | none => now + ACCESS_TOKEN_EXPIRE_MINUTES * 60
  { claims := { sub := some subject.toPyStr, exp := some expire,
                scopes := some scopes },
    signedWith := secret }

/-- security.decode_access_token.  Return type mirrors the declared
`Optional[TokenPayload]`: the success channel carries an `Option`, and the
error channel is the `ValueError` the function raises.  Steps, in source
order: `jwt.decode` (signature, then exp); `TokenPayload(**payload)`
(pydantic: `sub` and `exp` required, `scopes` defaults to `[]`; a
`ValidationError` is caught and re-raised as `ValueError`, the Malformed
kind); then the check the function itself makes,
`datetime.fromtimestamp(exp) < datetime.utcnow()`, whose
`ValueError("Token expired")` is not caught by the `except` clause. -/
def decode_access_token (secret : String) (now : Int) (t : JWTToken) :
    Except TokenError (Option TokenPayload) :=
  match jwt_decode secret now t with
  | .error .signatureInvalid => .error .invalidSignature
  | .error .expiredSignature => .error .expired
  | .ok claims =>
    match claims.sub, claims.exp with
    | some s, some e =>
      if e < now then .error .expired
      else .ok (some { sub := s, exp := e, scopes := claims.scopes.getD [] })
    | some _, none => .error .malformed
    | none, _ => .error .malformed

/-- The uncaught exception get_user_id_from_token would hit if
`decode_access_token` ever returned `None`: `None.sub` is an
`AttributeError`, and only `ValueError` is caught. -/
inductive PyRuntimeError where
  | attributeError
deriving Repr, DecidableEq

/-- security.get_user_id_from_token: `decode_access_token(token).sub`,
with `ValueError` mapped to `None`. -/
def get_user_id_from_token (secret : String) (now : Int) (t : JWTToken) :
    Except PyRuntimeError (Option String) :=
  match decode_access_token secret now t with
  | .ok (some payload) => .ok (some payload.sub)
  | .ok none => .error .attributeError
  | .error _ => .ok none

/-! ## Credential hasher (passlib CryptContext with the bcrypt scheme) -/

/-- Symbolic model of the bcrypt digest passlib computes from a salt and a
password.  Only two properties of the real digest are relied upon: it is a
deterministic function of (salt, password), and distinct (salt, password)
pairs give distinct digests.  One-wayness is never used or claimed. -/
def bcryptDigest (salt : Nat) (password : String) : String :=
  toString salt ++ ":" ++ password

/-- A stored hash string as passlib classifies it: either a string in the
bcrypt modular-crypt format (carrying its salt and digest), or any other
string, which matches none of the configured schemes. -/
inductive HashStr where
  | bcrypt (salt : Nat) (digest : String)
  | nonBcrypt (s : String)
deriving Repr, DecidableEq

/-- The passlib `UnknownHashError` (a `ValueError` subclass), raised by
`CryptContext.verify` when the supplied hash string matches no configured
scheme. -/
inductive PasslibError where
  | unknownHash
deriving Repr, DecidableEq

/-- passlib `CryptContext.hash` with a fresh salt: produces a bcrypt-format
hash string embedding the salt and the digest. -/
def pwd_context_hash (salt : Nat) (password : String) : HashStr :=
  .bcrypt salt (bcryptDigest salt password)

/-- passlib `CryptContext.verify`: identify the scheme of the hash string;
a bcrypt-format hash is checked by recomputing the digest with the
embedded salt; a string matching no scheme raises `UnknownHashError`
rather than returning. -/
def pwd_context_verify (plain : String) (h : HashStr) :
    Except PasslibError Bool :=
  match h with
  | .bcrypt salt digest => .ok (decide (bcryptDigest salt plain = digest))
  | .nonBcrypt _ => .error .unknownHash

/-- security.verify_password: a direct delegation to
`pwd_context.verify(plain_password, hashed_password)`; any exception
propagates. -/
def verify_password (plain_password : String) (hashed_password : HashStr) :
    Except PasslibError Bool :=
  pwd_context_verify plain_password hashed_password

/-- security.get_password_hash: `pwd_context.hash(password)`; the salt the
library draws at random is made an explicit argument. -/
def get_password_hash (salt : Nat) (password : String) : HashStr :=
  pwd_context_hash salt password

/-! ## User record store (models.User over a list) -/

/-- models.User (SQLAlchemy row).  Timestamps are epoch seconds. -/
structure User where
  id : Nat
  username : String
  email : String
  hashed_password : HashStr
  full_name : Option String
  is_active : Bool
  is_superuser : Bool
  created_at : Int
  updated_at : Int
deriving Repr, DecidableEq

/-! ## HTTP-level error responses -/

/-- A FastAPI `HTTPException` as observed by the caller: status code,
detail message, and whether a `WWW-Authenticate: Bearer` header is set. -/
structure HTTPError where
  status_code : Nat
  detail : String
  wwwAuthenticate : Bool
deriving Repr, DecidableEq

/-- The single 401 response the login route uses for an unknown identifier
and for a failed password check alike. -/
def invalidCredentialsError : HTTPError :=
  { status_code := 401, detail := "Incorrect username or password",
    wwwAuthenticate := true }

/-- The 401 response for an inactive account at login. -/
def inactiveUserError : HTTPError :=
  { status_code := 401, detail := "Inactive user", wwwAuthenticate := true }

/-- What the framework turns an unhandled exception into. -/
def internalServerError : HTTPError :=
  { status_code := 500, detail := "Internal Server Error",
    wwwAuthenticate := false }

/-- schemas.Token: the login/refresh response body. -/
structure Token where
  access_token : JWTToken
  token_type : String
deriving Repr, DecidableEq

/-! ## Login (endpoints/auth.py login) -/

/-- The user lookup of the login route: query by username first; if that finds
nothing, query by email with the same identifier. -/
def lookup_user (db : List User) (identifier : String) : Option User :=
  match db.find? (fun u => u.username == identifier) with
  | some u => some u
  | none => db.find? (fun u => u.email == identifier)

/-- endpoints/auth.py login: look the identifier up (username, then
email); `if not user or not verify_password(...)` raises the one
InvalidCredentials 401 (verification is short-circuited when no user was
found, and an exception from passlib would escape as a 500); an inactive
user gets the Inactive 401; otherwise issue
`create_access_token(subject=user.id)` (default expiry, default empty
scopes) and answer with token_type "bearer". -/
def login (secret : String) (now : Int) (db : List User)
    (username password : String) : Except HTTPError Token :=
  match lookup_user db username with
  | none => .error invalidCredentialsError
  | some user =>
    match verify_password password user.hashed_password with
    | .error _ => .error internalServerError
    | .ok false => .error invalidCredentialsError
    | .ok true =>
      if user.is_active then
        .ok { access_token := create_access_token secret now (.int user.id) none [],
              token_type := "bearer" }
      else
        .error inactiveUserError

/-! ## Authorization guard (endpoints/auth.py get_current_user) -/

/-- The failure kinds of the guard, one per raise site: any decode failure is
collapsed into the 401 "Could not validate credentials" response
(InvalidToken, carrying the internal kind), an unresolvable subject is the
401 "User not found" (UserNotFound), an inactive account the 401 "Inactive
user" (InactiveAccount); `internalError` is the 500 the framework would
produce if `decode_access_token` ever returned `None` and `.sub` raised. -/
inductive GuardError where
  | invalidToken (e : TokenError)
  | userNotFound
  | inactiveUser
  | internalError
deriving Repr, DecidableEq

/-- The SQLite column-affinity conversion of a text value compared against
an INTEGER column: a non-empty all-digit string denotes the natural number
it spells in decimal; any other string is not converted and equals no
integer.  (Signs, blanks and fractional forms are left out: every subject
this application issues is `str(user.id)` with `id` a positive integer.) -/
def decimalToNat? (s : String) : Option Nat :=
  if s.data ≠ [] ∧ s.data.all Char.isDigit then
    some (s.data.foldl (fun n c => n * 10 + (c.toNat - 48)) 0)
  else
    none

/-- `db.query(User).filter(User.id == user_id).first()` where `user_id` is
the decoded subject string and the column is an INTEGER: under SQLite
affinity a decimal-integer string is converted to the integer it denotes
and compared; a non-numeric string matches no row. -/
def find_user_by_id (db : List User) (sub : String) : Option User :=
  match decimalToNat? sub with
  | some n => db.find? (fun u => u.id == n)
  | none => none

/-- endpoints/auth.py get_current_user: decode the token, turning any
`ValueError` into the InvalidToken 401; resolve the subject to a user row,
else the UserNotFound 401; reject an inactive user with the
InactiveAccount 401; otherwise return the user. -/
def get_current_user (secret : String) (now : Int) (db : List User)
    (t : JWTToken) : Except GuardError User :=
  match decode_access_token secret now t with
  | .error e => .error (.invalidToken e)
  | .ok none => .error .internalError
  | .ok (some payload) =>
    match find_user_by_id db payload.sub with
    | none => .error .userNotFound
    | some user =>
      if user.is_active then .ok user else .error .inactiveUser

/-! ## Registration (schemas.UserCreate validation + endpoints/auth.py register) -/

/-- The registration failure kinds: the pydantic 422 for a password
failing the strength rules (WeakPassword, carrying the validator
message), and the two 400s of the route body. -/
inductive RegisterError where
  | weakPassword (msg : String)
  | duplicateEmail
  | duplicateUsername
deriving Repr, DecidableEq

/-- The password validation of schemas.UserCreate, in pydantic order: the
`Field(min_length=8)` constraint, then the digit check of the `password_strength` validator, then its uppercase check.  Character classes are taken at
ASCII granularity. -/
def validatePassword (p : String) : Except String String :=
  if p.data.length < 8 then
    .error "ensure this value has at least 8 characters"
  else if !(p.data.any Char.isDigit) then
    .error "Password must contain at least one digit"
  else if !(p.data.any Char.isUpper) then
    .error "Password must contain at least one uppercase letter"
  else
    .ok p

/-- endpoints/auth.py register, the route body (its `user_data` has already
passed schema validation): reject when a row with the same email exists;
then reject when a row with the same username exists; otherwise hash the
password and persist one new row, whose `is_active`/`is_superuser`/
timestamp columns take the model defaults true/false/now, with the
store-assigned fresh id.  Returns the response and the resulting store. -/
def register (db : List User) (salt newId : Nat) (now : Int)
    (email username : String) (full_name : Option String)
    (password : String) : Except RegisterError User × List User :=
  match db.find? (fun u => u.email == email) with
  | some _ => (.error .duplicateEmail, db)
  | none =>
    match db.find? (fun u => u.username == username) with
    | some _ => (.error .duplicateUsername, db)
    | none =>
      let user : User :=
        { id := newId, username := username, email := email,
          hashed_password := get_password_hash salt password,
          full_name := full_name, is_active := true, is_superuser := false,
          created_at := now, updated_at := now }
      (.ok user, db ++ [user])

/-- A registration request as the framework processes it: pydantic
validation of the password field runs before the route body, so a weak
password is rejected (store untouched) without reaching the duplicate
checks. -/
def register_request (db : List User) (salt newId : Nat) (now : Int)
    (email username : String) (full_name : Option String)
    (password : String) : Except RegisterError User × List User :=
  match validatePassword password with
  | .error m => (.error (.weakPassword m), db)
  | .ok pw => register db salt newId now email username full_name pw

/-! ## Shared helper lemmas -/

/-- Verifying a password against the hash produced from it succeeds,
whatever salt the library drew. -/
theorem verify_password_of_hash (salt : Nat) (p : String) :
    verify_password p (get_password_hash salt p) = .ok true := by
  simp [verify_password, pwd_context_verify, get_password_hash,
    pwd_context_hash]

/-- `find?` returns the member that satisfies the predicate when it is the
only member doing so. -/
theorem find?_eq_some_of_unique {α : Type _} (l : List α) (q : α → Bool)
    (u : α) (hmem : u ∈ l) (hq : q u = true)
    (huniq : ∀ v ∈ l, q v = true → v = u) : l.find? q = some u := by
  induction l with
  | nil => cases hmem
  | cons a as ih =>
    by_cases ha : q a = true
    · have hau : a = u := huniq a (List.mem_cons_self a as) ha
      subst hau
      exact List.find?_cons_of_pos as ha
    · rw [List.find?_cons_of_neg as ha]
      rcases List.mem_cons.mp hmem with hau | hmem'
      · exact absurd (hau ▸ hq) ha
      · exact ih hmem' fun v hv hqv => huniq v (List.mem_cons_of_mem a hv) hqv

/-- `decode_access_token` never produces the `None` its declared return
type advertises: every successful run carries a payload. -/
theorem decode_access_token_ne_ok_none (secret : String) (now : Int)
    (t : JWTToken) : decode_access_token secret now t ≠ .ok none := by
  unfold decode_access_token
  rcases jwt_decode secret now t with je | claims
  · rcases je <;> simp
  · rcases hs : claims.sub with _ | s <;> rcases he : claims.exp with _ | e <;>
      simp [hs, he]
    intro h
    split at h <;> simp_all

/-! ## The claims -/

/-- Claim C1: for every subject, scope list, and expiry strictly in the
future of the issue instant, decoding the token produced by
`create_access_token` under the same secret, at any current time before
the expiry, returns a payload whose subject (the canonical string the
encoder stores), scopes, and expiry are identical to the encoded ones. -/
theorem claim_C1 (secret : String) (subject : StrOrInt)
    (scopes : List String) (issueTime d decodeTime : Int) (hd : 0 < d)
    (hdec : decodeTime < issueTime + d) :
    decode_access_token secret decodeTime
        (create_access_token secret issueTime subject (some d) scopes) =
      .ok (some { sub := subject.toPyStr, exp := issueTime + d,
                  scopes := scopes }) := by
  have hd0 : ¬ d = 0 := by omega
  have hne : ¬ (issueTime + d < decodeTime) := by omega
  simp [create_access_token, decode_access_token, jwt_decode, hd0, hne]

/-- Witness for claim C1 at secret "k", subject 7, scopes ["read"],
issue time 0, lifetime 60 seconds, decode time 30. -/
theorem claim_C1_witness :
    decode_access_token "k" 30
        (create_access_token "k" 0 (.int 7) (some 60) ["read"]) =
      .ok (some { sub := StrOrInt.toPyStr (.int 7), exp := 0 + 60,
                  scopes := ["read"] }) :=
  claim_C1 "k" (.int 7) ["read"] 0 60 30 (by decide) (by decide)

/-- Claim C3, counterexample: verifying any plaintext against a string
that conforms to no configured hash scheme does not return false -- the
passlib context raises `UnknownHashError` (a `ValueError`), which
`verify_password` does not catch. -/
theorem claim_C3_counterexample :
    verify_password "anything" (.nonBcrypt "not-a-valid-hash") =
      .error .unknownHash := by decide

/-- Claim C3 as amended: for every plaintext and every claimed stored
hash that does not conform to the hash format produced by the hasher,
`verify_password` raises `UnknownHashError` instead of returning; in
particular it never returns true for such a hash, but it does not fail
closed by returning false. -/
theorem claim_C3 (plain s : String) :
    verify_password plain (.nonBcrypt s) = .error .unknownHash := rfl

/-- Claim C4, counterexample: a validly signed token whose expiration
equals the current instant ("at ... the current time") decodes
successfully rather than failing as Expired, because both expiry checks
are strict; and an expired token with a wrong signature fails with the
InvalidSignature kind, not Expired, because jose verifies the signature
before validating claims. -/
theorem claim_C4_counterexample :
    decode_access_token "k" 1000
        { claims := { sub := some "1", exp := some 1000, scopes := some [] },
          signedWith := "k" } =
      .ok (some { sub := "1", exp := 1000, scopes := [] }) ∧
    decode_access_token "k" 1000
        { claims := { sub := some "1", exp := some 500, scopes := some [] },
          signedWith := "x" } =
      .error .invalidSignature := by
  exact ⟨by decide, by decide⟩

/-- Claim C4 as amended: for every token whose signature is valid and
whose embedded expiration instant is strictly before the current time at
decode time, decode fails with the Expired kind; when the signature is
invalid, decode fails with the InvalidSignature kind instead, regardless
of expiry. -/
theorem claim_C4 (secret : String) (now e : Int) (t : JWTToken) :
    (t.signedWith = secret → t.claims.exp = some e → e < now →
        decode_access_token secret now t = .error .expired) ∧
    (¬ t.signedWith = secret →
        decode_access_token secret now t = .error .invalidSignature) := by
  constructor
  · intro hs he hlt
    simp [decode_access_token, jwt_decode, hs, he, hlt]
  · intro hs
    simp [decode_access_token, jwt_decode, hs]

/-- Witness for claim C4: an expired validly-signed token decodes to
Expired; the same claims under a wrong signature decode to
InvalidSignature. -/
theorem claim_C4_witness :
    decode_access_token "k" 1000
        { claims := { sub := some "1", exp := some 500, scopes := some [] },
          signedWith := "k" } =
      .error .expired ∧
    decode_access_token "k" 1000
        { claims := { sub := some "1", exp := some 500, scopes := some [] },
          signedWith := "x" } =
      .error .invalidSignature := by
  constructor
  · exact (claim_C4 "k" 1000 500
      { claims := { sub := some "1", exp := some 500, scopes := some [] },
        signedWith := "k" }).1 (by decide) (by decide) (by decide)
  · exact (claim_C4 "k" 1000 500
      { claims := { sub := some "1", exp := some 500, scopes := some [] },
        signedWith := "x" }).2 (by decide)

/-- Claim C9: for every password and every salt the library may draw,
verifying the password against the hash produced from it returns true. -/
theorem claim_C9 (salt : Nat) (p : String) :
    verify_password p (get_password_hash salt p) = .ok true :=
  verify_password_of_hash salt p

/-- Claim C10: `decode_access_token` never returns the `None` of its
declared `Optional` type: on every input it either returns a payload or
raises `ValueError`; and `get_user_id_from_token` is total, returning the
subject on success and mapping every decode failure to `None` without
raising. -/
theorem claim_C10 (secret : String) (now : Int) (t : JWTToken) :
    (∃ p, decode_access_token secret now t = .ok (some p) ∧
        get_user_id_from_token secret now t = .ok (some p.sub)) ∨
    (∃ e, decode_access_token secret now t = .error e ∧
        get_user_id_from_token secret now t = .ok none) := by
  rcases h : decode_access_token secret now t with e | op
  · exact Or.inr ⟨e, rfl, by simp [get_user_id_from_token, h]⟩
  · rcases op with _ | p
    · exact absurd h (decode_access_token_ne_ok_none secret now t)
    · exact Or.inl ⟨p, rfl, by simp [get_user_id_from_token, h]⟩

/-! ## Concrete fixtures used by witnesses and counterexamples -/

/-- An active registered user, password "Right123" hashed with salt 0. -/
def alice : User :=
  { id := 1, username := "alice", email := "alice@example.com",
    hashed_password := pwd_context_hash 0 "Right123", full_name := none,
    is_active := true, is_superuser := false, created_at := 0,
    updated_at := 0 }

/-- A deactivated user, password "Carol123" hashed with salt 1. -/
def carol : User :=
  { id := 2, username := "carol", email := "carol@example.com",
    hashed_password := pwd_context_hash 1 "Carol123", full_name := none,
    is_active := false, is_superuser := false, created_at := 0,
    updated_at := 0 }

/-- A two-user store: one active account and one deactivated account. -/
def demoDb : List User := [alice, carol]

/-- Claim C2: a login whose identifier matches no stored username or
email, and a login whose identifier resolves to a stored user but whose
password fails verification, fail with the identical error kind, message,
and response -- the single InvalidCredentials 401 -- so the two failure
causes are indistinguishable to the caller. -/
theorem claim_C2 (secret : String) (now : Int) (db : List User)
    (id1 pw1 id2 pw2 : String) (u : User)
    (h1 : ∀ v ∈ db, v.username ≠ id1 ∧ v.email ≠ id1)
    (h2 : lookup_user db id2 = some u)
    (h3 : verify_password pw2 u.hashed_password = .ok false) :
    login secret now db id1 pw1 = .error invalidCredentialsError ∧
    login secret now db id2 pw2 = .error invalidCredentialsError := by
  have hu : db.find? (fun v => v.username == id1) = none := by
    rw [List.find?_eq_none]
    intro v hv
    simpa using (h1 v hv).1
  have he : db.find? (fun v => v.email == id1) = none := by
    rw [List.find?_eq_none]
    intro v hv
    simpa using (h1 v hv).2
  have hl1 : lookup_user db id1 = none := by
    simp [lookup_user, hu, he]
  exact ⟨by simp [login, hl1], by simp [login, h2, h3]⟩

/-- Witness for claim C2: on the demo store, login with an unknown
identifier and login for alice with a wrong password produce the same
InvalidCredentials response. -/
theorem claim_C2_witness :
    login "k" 0 demoDb "nonexistent" "anything" =
      .error invalidCredentialsError ∧
    login "k" 0 demoDb "alice" "wrong-pw" =
      .error invalidCredentialsError :=
  claim_C2 "k" 0 demoDb "nonexistent" "anything" "alice" "wrong-pw" alice
    (by decide) (by decide) (by decide)

/-- Claim C5: for every token presented to the guard, a decode failure
yields the InvalidToken rejection (carrying the collapsed internal kind);
otherwise an unresolvable subject yields UserNotFound; otherwise a user
whose active flag is false -- for example one deactivated after issuance
of a still-unexpired token -- yields InactiveAccount; otherwise the guard
returns the resolved user. -/
theorem claim_C5 (secret : String) (now : Int) (db : List User)
    (t : JWTToken) :
    (∀ e, decode_access_token secret now t = .error e →
        get_current_user secret now db t = .error (.invalidToken e)) ∧
    (∀ p, decode_access_token secret now t = .ok (some p) →
        find_user_by_id db p.sub = none →
        get_current_user secret now db t = .error .userNotFound) ∧
    (∀ p u, decode_access_token secret now t = .ok (some p) →
        find_user_by_id db p.sub = some u → u.is_active = false →
        get_current_user secret now db t = .error .inactiveUser) ∧
    (∀ p u, decode_access_token secret now t = .ok (some p) →
        find_user_by_id db p.sub = some u → u.is_active = true →
        get_current_user secret now db t = .ok u) := by
  refine ⟨?_, ?_, ?_, ?_⟩
  · intro e h
    simp [get_current_user, h]
  · intro p h hf
    simp [get_current_user, h, hf]
  · intro p u h hf ha
    simp [get_current_user, h, hf, ha]
  · intro p u h hf ha
    simp [get_current_user, h, hf, ha]

/-- A token with a wrong signature, presented to the guard. -/
def tokBadSig : JWTToken :=
  { claims := { sub := some "1", exp := some 100, scopes := some [] },
    signedWith := "x" }

/-- A validly signed token whose subject matches no stored user. -/
def tokGhost : JWTToken :=
  { claims := { sub := some "9", exp := some 100, scopes := some [] },
    signedWith := "k" }

/-- A validly signed, unexpired token for the deactivated user carol. -/
def tokCarol : JWTToken :=
  { claims := { sub := some "2", exp := some 100, scopes := some [] },
    signedWith := "k" }

/-- A validly signed, unexpired token for the active user alice. -/
def tokAlice : JWTToken :=
  { claims := { sub := some "1", exp := some 100, scopes := some [] },
    signedWith := "k" }

/-- Witness for claim C5, exercising all four branches of the guard on
the demo store: bad signature, unknown subject, deactivated account with
a still-valid token, and the success path. -/
theorem claim_C5_witness :
    get_current_user "k" 0 demoDb tokBadSig =
      .error (.invalidToken .invalidSignature) ∧
    get_current_user "k" 0 demoDb tokGhost = .error .userNotFound ∧
    get_current_user "k" 0 demoDb tokCarol = .error .inactiveUser ∧
    get_current_user "k" 0 demoDb tokAlice = .ok alice := by
  refine ⟨?_, ?_, ?_, ?_⟩
  · exact (claim_C5 "k" 0 demoDb tokBadSig).1 .invalidSignature (by decide)
  · exact (claim_C5 "k" 0 demoDb tokGhost).2.1
      { sub := "9", exp := 100, scopes := [] } (by decide) (by decide)
  · exact (claim_C5 "k" 0 demoDb tokCarol).2.2.1
      { sub := "2", exp := 100, scopes := [] } carol (by decide) (by decide)
      (by decide)
  · exact (claim_C5 "k" 0 demoDb tokAlice).2.2.2
      { sub := "1", exp := 100, scopes := [] } alice (by decide) (by decide)
      (by decide)

/-- A user whose username is spelled like an email address (usernames are
only constrained to 3..50 characters, so this is storable). -/
def userA : User :=
  { id := 1, username := "bob@c.com", email := "a@a.com",
    hashed_password := pwd_context_hash 0 "PwA11111", full_name := none,
    is_active := true, is_superuser := false, created_at := 0,
    updated_at := 0 }

/-- An active user whose email equals the username of `userA`. -/
def userB : User :=
  { id := 2, username := "bob", email := "bob@c.com",
    hashed_password := pwd_context_hash 1 "PwB22222", full_name := none,
    is_active := true, is_superuser := false, created_at := 0,
    updated_at := 0 }

/-- A store in which the username of one user collides with the email of
another; usernames and emails are still each pairwise distinct. -/
def dbColl : List User := [userA, userB]

/-- Claim C6, counterexample: userB is stored, active, and its password
hash is the hash of "PwB22222", yet logging in with the email of userB
and that correct password fails with InvalidCredentials, because the
username lookup runs first and finds userA (whose username equals that
email), and the password check then runs against the hash of userA. -/
theorem claim_C6_counterexample :
    userB ∈ dbColl ∧ userB.is_active = true ∧
    userB.hashed_password = get_password_hash 1 "PwB22222" ∧
    login "k" 0 dbColl userB.email "PwB22222" =
      .error invalidCredentialsError := by
  exact ⟨by decide, by decide, by decide, by decide⟩

/-- Claim C6 as amended: for every stored active user u with password p,
provided u is the only stored user with its username, the only one with
its email, and no stored username equals the email of u, login with the
username of u and login with the email of u both succeed (the lookup
tries username first and falls back to email) and return the bearer
token whose decoded subject is the string form of the identity of u and
whose scope list is empty. -/
theorem claim_C6 (secret : String) (now : Int) (salt : Nat)
    (db : List User) (u : User) (p : String)
    (hmem : u ∈ db)
    (hactive : u.is_active = true)
    (hpw : u.hashed_password = get_password_hash salt p)
    (huname : ∀ v ∈ db, v.username = u.username → v = u)
    (hemail : ∀ v ∈ db, v.email = u.email → v = u)
    (hcross : ∀ v ∈ db, v.username ≠ u.email) :
    login secret now db u.username p =
      .ok { access_token := create_access_token secret now (.int u.id) none [],
            token_type := "bearer" } ∧
    login secret now db u.email p =
      .ok { access_token := create_access_token secret now (.int u.id) none [],
            token_type := "bearer" } ∧
    decode_access_token secret now
        (create_access_token secret now (.int u.id) none []) =
      .ok (some { sub := StrOrInt.toPyStr (.int u.id),
                  exp := now + ACCESS_TOKEN_EXPIRE_MINUTES * 60,
                  scopes := [] }) := by
  have hfind1 : db.find? (fun v => v.username == u.username) = some u :=
    find?_eq_some_of_unique db _ u hmem (by simp)
      fun v hv hq => huname v hv (by simpa using hq)
  have hlookup1 : lookup_user db u.username = some u := by
    simp [lookup_user, hfind1]
  have hfindcross : db.find? (fun v => v.username == u.email) = none := by
    rw [List.find?_eq_none]
    intro v hv
    simpa using hcross v hv
  have hfind2 : db.find? (fun v => v.email == u.email) = some u :=
    find?_eq_some_of_unique db _ u hmem (by simp)
      fun v hv hq => hemail v hv (by simpa using hq)
  have hlookup2 : lookup_user db u.email = some u := by
    simp [lookup_user, hfindcross, hfind2]
  have hver : verify_password p u.hashed_password = .ok true := by
    rw [hpw]
    exact verify_password_of_hash salt p
  have hne : ¬ (now + ACCESS_TOKEN_EXPIRE_MINUTES * 60 < now) := by
    unfold ACCESS_TOKEN_EXPIRE_MINUTES
    omega
  refine ⟨?_, ?_, ?_⟩
  · simp [login, hlookup1, hver, hactive]
  · simp [login, hlookup2, hver, hactive]
  · simp [create_access_token, decode_access_token, jwt_decode, hne]

/-- Witness for claim C6: on the demo store, alice can log in by username
and by email; the issued token decodes back to the identity of alice with
an empty scope list. -/
theorem claim_C6_witness :
    login "k" 100 demoDb alice.username "Right123" =
      .ok { access_token := create_access_token "k" 100 (.int alice.id) none [],
            token_type := "bearer" } ∧
    login "k" 100 demoDb alice.email "Right123" =
      .ok { access_token := create_access_token "k" 100 (.int alice.id) none [],
            token_type := "bearer" } ∧
    decode_access_token "k" 100
        (create_access_token "k" 100 (.int alice.id) none []) =
      .ok (some { sub := StrOrInt.toPyStr (.int alice.id),
                  exp := 100 + ACCESS_TOKEN_EXPIRE_MINUTES * 60,
                  scopes := [] }) :=
  claim_C6 "k" 100 0 demoDb alice "Right123" (by decide) (by decide)
    (by decide) (by decide) (by decide) (by decide)

/-- Claim C7: a registration request whose password is shorter than 8
characters, or contains no digit, or contains no uppercase letter, is
rejected with WeakPassword and leaves the store unchanged; a password
satisfying all three conditions passes the strength validation. -/
theorem claim_C7 (db : List User) (salt newId : Nat) (now : Int)
    (email username : String) (full_name : Option String) (p : String) :
    ((p.data.length < 8 ∨ ¬ p.data.any Char.isDigit = true ∨
        ¬ p.data.any Char.isUpper = true) →
      (∃ m, (register_request db salt newId now email username full_name p).1 =
          .error (.weakPassword m)) ∧
      (register_request db salt newId now email username full_name p).2 = db) ∧
    (8 ≤ p.data.length → p.data.any Char.isDigit = true →
      p.data.any Char.isUpper = true → validatePassword p = .ok p) := by
  constructor
  · intro hweak
    have hval : ∃ m, validatePassword p = .error m := by
      unfold validatePassword
      by_cases hl : p.data.length < 8
      · exact ⟨_, by rw [if_pos hl]⟩
      · rw [if_neg hl]
        by_cases hd : p.data.any Char.isDigit = true
        · have hu : ¬ p.data.any Char.isUpper = true := by
            rcases hweak with h | h | h
            · exact absurd h hl
            · exact absurd hd h
            · exact h
          have hu' : p.data.any Char.isUpper = false := by
            simpa using hu
          rw [if_neg (by simp [hd]), if_pos (by simp [hu'])]
          exact ⟨_, rfl⟩
        · have hd' : p.data.any Char.isDigit = false := by
            simpa using hd
          rw [if_pos (by simp [hd'])]
          exact ⟨_, rfl⟩
    rcases hval with ⟨m, hm⟩
    exact ⟨⟨m, by simp [register_request, hm]⟩,
           by simp [register_request, hm]⟩
  · intro h1 h2 h3
    have hl : ¬ p.data.length < 8 := by omega
    unfold validatePassword
    rw [if_neg hl, if_neg (by simp [h2]), if_neg (by simp [h3])]

/-- Witness for claim C7: "alllowercase1" (no uppercase) is rejected with
WeakPassword and creates no record; "Valid123" passes the strength
check. -/
theorem claim_C7_witness :
    ((∃ m, (register_request [] 0 1 0 "a@b.c" "abc" none "alllowercase1").1 =
        .error (.weakPassword m)) ∧
      (register_request [] 0 1 0 "a@b.c" "abc" none "alllowercase1").2 = []) ∧
    validatePassword "Valid123" = .ok "Valid123" :=
  ⟨(claim_C7 [] 0 1 0 "a@b.c" "abc" none "alllowercase1").1 (by decide),
   (claim_C7 [] 0 1 0 "a@b.c" "abc" none "Valid123").2 (by decide) (by decide)
     (by decide)⟩

/-- Claim C8: with an acceptable password, registration fails with
DuplicateEmail exactly when the email is already stored (this check runs
first); otherwise it fails with DuplicateUsername exactly when the
username is already stored; when neither duplicate exists, exactly one
new record is appended, with active true and superuser false; and on
every failure the store is unchanged. -/
theorem claim_C8 (db : List User) (salt newId : Nat) (now : Int)
    (email username : String) (full_name : Option String) (p : String)
    (hp : validatePassword p = .ok p) :
    ((register_request db salt newId now email username full_name p).1 =
        .error .duplicateEmail ↔ ∃ v ∈ db, v.email = email) ∧
    ((¬ ∃ v ∈ db, v.email = email) →
      ((register_request db salt newId now email username full_name p).1 =
          .error .duplicateUsername ↔ ∃ v ∈ db, v.username = username)) ∧
    ((¬ ∃ v ∈ db, v.email = email) → (¬ ∃ v ∈ db, v.username = username) →
      ∃ newUser, newUser.is_active = true ∧ newUser.is_superuser = false ∧
        register_request db salt newId now email username full_name p =
          (.ok newUser, db ++ [newUser])) ∧
    (∀ e, (register_request db salt newId now email username full_name p).1 =
        .error e →
      (register_request db salt newId now email username full_name p).2 = db) := by
  have hreq : register_request db salt newId now email username full_name p =
      register db salt newId now email username full_name p := by
    simp [register_request, hp]
  rw [hreq]
  unfold register
  rcases hm : db.find? (fun v => v.email == email) with _ | v
  · have hnoe : ¬ ∃ v ∈ db, v.email = email := by
      rw [List.find?_eq_none] at hm
      rintro ⟨v, hv, hveq⟩
      have hx := hm v hv
      simp only [beq_iff_eq] at hx
      exact hx hveq
    rcases hn : db.find? (fun v => v.username == username) with _ | w
    · have hnou : ¬ ∃ v ∈ db, v.username = username := by
        rw [List.find?_eq_none] at hn
        rintro ⟨v, hv, hveq⟩
        have hx := hn v hv
        simp only [beq_iff_eq] at hx
        exact hx hveq
      simp only [hm, hn]
      refine ⟨?_, ?_, ?_, ?_⟩
      · simp [hnoe]
      · intro _
        simp [hnou]
      · intro _ _
        exact ⟨{ id := newId, username := username, email := email,
                 hashed_password := get_password_hash salt p,
                 full_name := full_name, is_active := true,
                 is_superuser := false, created_at := now,
                 updated_at := now }, rfl, rfl, rfl⟩
      · intro e h
        simp at h
    · have hwmem : w ∈ db := List.mem_of_find?_eq_some hn
      have hweq : w.username = username := by
        simpa using List.find?_some hn
      simp only [hm, hn]
      refine ⟨?_, ?_, ?_, ?_⟩
      · exact iff_of_false (by simp) hnoe
      · intro _
        exact iff_of_true (by simp) ⟨w, hwmem, hweq⟩
      · intro _ hnou
        exact absurd ⟨w, hwmem, hweq⟩ hnou
      · intro e _
        simp
  · have hvmem : v ∈ db := List.mem_of_find?_eq_some hm
    have hveq : v.email = email := by
      simpa using List.find?_some hm
    simp only [hm]
    refine ⟨?_, ?_, ?_, ?_⟩
    · exact iff_of_true (by simp) ⟨v, hvmem, hveq⟩
    · intro hnoe
      exact absurd ⟨v, hvmem, hveq⟩ hnoe
    · intro hnoe _
      exact absurd ⟨v, hvmem, hveq⟩ hnoe
    · intro e _
      simp

/-- Witness for claim C8: on the demo store, re-registering the email of
alice fails with DuplicateEmail, and registering a fresh email and
username appends exactly one active, non-superuser record. -/
theorem claim_C8_witness :
    (register_request demoDb 0 9 0 "alice@example.com" "bob" none
        "Valid123").1 = .error .duplicateEmail ∧
    (∃ newUser, newUser.is_active = true ∧ newUser.is_superuser = false ∧
      register_request demoDb 0 9 0 "new@example.com" "bob" none "Valid123" =
        (.ok newUser, demoDb ++ [newUser])) := by
  constructor
  · exact (claim_C8 demoDb 0 9 0 "alice@example.com" "bob" none "Valid123"
      (by decide)).1.mpr ⟨alice, by decide, by decide⟩
  · exact (claim_C8 demoDb 0 9 0 "new@example.com" "bob" none "Valid123"
      (by decide)).2.2.1 (by decide) (by decide)

end App
